import Mathlib

/-
  Verification of the GenAI cohort-management portal (app.py, signup.py)
  against its natural-language specification.

  The spreadsheet backend is modelled shallowly:
  a remote worksheet is a list of rows (row 1 = headers, 1-based addressing),
  the per-session cache is a pair of association lists mirroring
  `st.session_state.sheet_data_cache` / `st.session_state.last_sheet_refresh`,
  time is an integer number of seconds, and a remote fetch outcome is an
  `Except` value injected as a parameter.  Each definition is translated
  from the Python source function it names.
-/

namespace Cohort

/-- A spreadsheet row: a list of cell strings. -/
abbrev Row := List String

/-- A remote worksheet: list of rows, element 0 is spreadsheet row 1
(the header row); gspread row addressing is 1-based. -/
abbrev RemoteSheet := List Row

/-- The result of `worksheet.get_all_records()`: the header row the record
dicts are keyed by, together with the data rows. -/
structure SheetRecords where
  headers : List String
  rows : List Row
deriving DecidableEq, Repr

/-- Models `worksheet.row_values(1)`: the header row (empty list on an empty sheet). -/
def row_values_1 (s : RemoteSheet) : List String := s.headD []

/-- Models `worksheet.get_all_records()` on the remote sheet: dicts keyed by the
header row, one per data row. -/
def get_all_records (s : RemoteSheet) : List Row := s.tail

/-- Package a remote sheet as the records structure a fetch returns. -/
def recordsOfSheet (s : RemoteSheet) : SheetRecords :=
  ⟨row_values_1 s, get_all_records s⟩

/-- Models `worksheet.delete_rows(r)` (1-based row number `r`). -/
def delete_rows (s : RemoteSheet) (r : Nat) : RemoteSheet := s.eraseIdx (r - 1)

/-- Models `worksheet.update(rangeStartingAtRow r, [vals])`: overwrite remote row `r`
(1-based) with `vals`. -/
def update_row (s : RemoteSheet) (r : Nat) (vals : Row) : RemoteSheet :=
  s.set (r - 1) vals

/-- Models `worksheet.append_row(vals)`. -/
def append_row (s : List α) (vals : α) : List α := s ++ [vals]

/-- Pad a row with empty cells to 1-based column `c` and write `v` there:
`worksheet.update_cell(_, c, v)` acting on one row. -/
def set_cell_1 (row : Row) (c : Nat) (v : String) : Row :=
  (row ++ List.replicate (c - row.length) "").set (c - 1) v

/-- Models `worksheet.update_cell(r, c, v)` (both 1-based). -/
def update_cell (s : RemoteSheet) (r c : Nat) (v : String) : RemoteSheet :=
  s.set (r - 1) (set_cell_1 (s.getD (r - 1) []) c v)

/-- Models `record.get(h, "")`: look a field up in a record dict keyed by `headers`;
gspread pads short rows with `""`, and a missing key yields the default. -/
def getField (headers : List String) (row : Row) (h : String) : String :=
  match headers.findIdx? (· == h) with
  | some i => row.getD i ""
  | none => ""

/-- Models `record.get(h)` with no default: `none` models Python `None`, which a
string comparison never equals. -/
def recordGet (headers : List String) (row : Row) (h : String) :
    Option String :=
  (headers.findIdx? (· == h)).map (fun i => row.getD i "")

/-- Association-list lookup (Python `dict` read, `k in d` / `d[k]`). -/
def lookupA (l : List (String × α)) (k : String) : Option α :=
  match l with
  | [] => none
  | (k', v) :: t => if k' == k then some v else lookupA t k

/-- Association-list write (Python `d[k] = v`: update in place, else append). -/
def setA (l : List (String × α)) (k : String) (v : α) : List (String × α) :=
  match l with
  | [] => [(k, v)]
  | (k', v') :: t => if k' == k then (k, v) :: t else (k', v') :: setA t k v

/-- The `headers` dict in `get_sheet` (app.py lines 138-150): prescribed
header row per worksheet name; `headers.get(sheet_name, [])` defaults to `[]`. -/
def sheetHeaders : String → List String
  | "Teams" => ["TeamName", "Description"]
  | "Participants_list" =>
      ["Name", "Email", "Preferred Name", "Experience Level",
       "Have GenAI Experience?", "Background", "Why do you want to join?",
       "What are your goals?", "Role Preference 1", "Role Preference 2",
       "Skills for Role", "Can participate daily?", "Best Time to Meet",
       "Has computer & internet?", "Comfortable with Tools",
       "Other Tools Known", "Anything else?",
       "Willing to mentor future cohorts?", "Status", "Team"]
  | "Projects" =>
      ["ProjectName", "AssignedTeam", "ProjectInfo", "CreatedAt",
       "CurrentPhase", "Progress"]
  | "Updates" => ["UpdateID", "Timestamp", "Team", "Email", "Update", "Phase"]
  | "Comments" => ["UpdateID", "Timestamp", "Email", "Comment"]
  | "Likes" => ["UpdateID", "Email"]
  | "ProjectProgress" =>
      ["ProjectName", "Phase", "Status", "StartDate", "EndDate", "Comments"]
  | _ => []

/-- Models `get_sheet` (app.py lines 163-190), path where the worksheet exists:
`Participants_list` is returned untouched; any other worksheet has its first
row compared to the prescribed headers and, on mismatch, is cleared and the
header row rewritten (`worksheet.clear(); worksheet.append_row(expected)`). -/
def get_sheet_existing (sheet_name : String) (ws : RemoteSheet) : RemoteSheet :=
  if sheet_name == "Participants_list" then ws
  else
    let current_headers := row_values_1 ws
    let expected_headers := sheetHeaders sheet_name
    if current_headers ≠ expected_headers then [expected_headers]
    else ws

/-- Models `get_sheet` (app.py lines 163-190): the `WorksheetNotFound` branch creates
the worksheet with the prescribed header row. -/
def get_sheet (sheet_name : String) (ws : Option RemoteSheet) : RemoteSheet :=
  match ws with
  | some w => get_sheet_existing sheet_name w
  | none => append_row [] (sheetHeaders sheet_name)

/-- Models `CACHE_DURATION` (app.py line 89), in minutes. -/
def CACHE_DURATION : Int := 5

/-- An exception raised by a remote call: a gspread `APIError` (with or
without `"429"` in its text), the `KeyError` a dict read can raise, or any
other exception. -/
inductive FetchError
  | apiError (is429 : Bool)
  | keyError
  | other
deriving DecidableEq, Repr

/-- The per-session state: `st.session_state` worksheets handle plus the two
cache dicts (`sheet_data_cache`, `last_sheet_refresh`); times in seconds. -/
structure SessionState where
  tables : List (String × RemoteSheet)
  sheet_data_cache : List (String × SheetRecords)
  last_sheet_refresh : List (String × Int)
deriving DecidableEq, Repr

/-- Worksheet read through the session (`get_sheet` over the stored tables). -/
def get_sheet_st (st : SessionState) (name : String) : RemoteSheet :=
  get_sheet name (lookupA st.tables name)

/-- Write a worksheet back into the session's remote state. -/
def set_table (st : SessionState) (name : String) (ws : RemoteSheet) :
    SessionState :=
  { st with tables := setA st.tables name ws }

/-- Models `clear_cache` (app.py lines 123-126): empty both cache dicts. -/
def clear_cache (st : SessionState) : SessionState :=
  { st with sheet_data_cache := [], last_sheet_refresh := [] }

deriving instance DecidableEq for Except

/-- Outcome of one `get_cached_sheet_data` call: the returned rows or the
propagated exception, the session state afterwards, and how many remote
`get_all_records` calls were performed. -/
structure GetResult where
  result : Except FetchError SheetRecords
  state : SessionState
  fetchCount : Nat
deriving DecidableEq

/-- The validity test of app.py lines 96-98: a snapshot and a fetch-time are
recorded and the fetch-time is within `CACHE_DURATION` minutes of now. -/
def cache_valid (st : SessionState) (now : Int) (name : String) : Bool :=
  match lookupA st.sheet_data_cache name, lookupA st.last_sheet_refresh name with
  | some _, some t => now - t < CACHE_DURATION * 60
  | _, _ => false

/-- The fetch path of `get_cached_sheet_data` (app.py lines 102-121):
`worksheet.get_all_records()` with its try/except ladder.  On success the
snapshot and fetch-time are stored.  A `"429"` `APIError` falls back to the
cached snapshot when one exists (the warning message reads
`last_sheet_refresh[sheet_name]`, which raises `KeyError` if absent), else
re-raises; any other `APIError` re-raises; any other exception falls back to
the cached snapshot when one exists, else re-raises. -/
def fetch_sheet_data (st : SessionState) (now : Int) (name : String)
    (fetch : Except FetchError SheetRecords) : GetResult :=
  match fetch with
  | .ok data =>
      ⟨.ok data,
       { st with
          sheet_data_cache := setA st.sheet_data_cache name data,
          last_sheet_refresh := setA st.last_sheet_refresh name now },
       1⟩
  | .error (.apiError is429) =>
      if is429 then
        match lookupA st.sheet_data_cache name with
        | some d =>
            match lookupA st.last_sheet_refresh name with
            | some _ => ⟨.ok d, st, 1⟩
            | none => ⟨.error .keyError, st, 1⟩
        | none => ⟨.error (.apiError true), st, 1⟩
      else ⟨.error (.apiError false), st, 1⟩
  | .error e =>
      match lookupA st.sheet_data_cache name with
      | some d =>
          match lookupA st.last_sheet_refresh name with
          | some _ => ⟨.ok d, st, 1⟩
          | none => ⟨.error .keyError, st, 1⟩
      | none => ⟨.error e, st, 1⟩

/-- Models `get_cached_sheet_data` (app.py lines 91-121): serve from the cache when
the snapshot is valid, otherwise go through the fetch path. -/
def get_cached_sheet_data (st : SessionState) (now : Int) (name : String)
    (fetch : Except FetchError SheetRecords) : GetResult :=
  match lookupA st.sheet_data_cache name, lookupA st.last_sheet_refresh name with
  | some d, some t =>
      if now - t < CACHE_DURATION * 60 then ⟨.ok d, st, 0⟩
      else fetch_sheet_data st now name fetch
  | _, _ => fetch_sheet_data st now name fetch

/-- The `[admin]` section of `st.secrets` (secrets.toml). -/
structure AdminConfig where
  email : Option String
  password : Option String
deriving DecidableEq, Repr

/-- The static configuration surface `check_admin_login` reads: the optional
`admin` section (the gmail/gspread/google sections are irrelevant to it). -/
structure Secrets where
  admin : Option AdminConfig
deriving DecidableEq, Repr

/-- Models `check_admin_login` (app.py lines 65-81).  The Python function runs with
global access to `st.session_state` (spreadsheet handle and caches); the
`st` parameter records that access, and the body — translated from the
source — reads only `st.secrets["admin"]` and the two inputs: missing
section or missing keys give `False`, otherwise exact string equality of
both email and password. -/
def check_admin_login (sec : Secrets) (st : SessionState)
    (email password : String) : Bool :=
  match sec.admin with
  | none => false
  | some cfg =>
      match cfg.email, cfg.password with
      | some adminEmail, some adminPassword =>
          email == adminEmail && password == adminPassword
      | _, _ => false

/-- Models `check_participant_login` (app.py lines 1261-1297), given the records the
cached fetch produced: empty data, a missing `Email` column, no matching row,
a missing `PasswordHash` column, or an empty stored hash all give `False`;
otherwise the hash-check primitive decides.  `check_password_hash` is the
external werkzeug primitive, passed as `chk`. -/
def check_participant_login_data (chk : String → String → Bool)
    (t : SheetRecords) (email password : String) : Bool :=
  if t.rows.isEmpty then false
  else if !(t.headers.contains "Email") then false
  else
    match t.rows.find? (fun r => getField t.headers r "Email" == email) with
    | none => false
    | some r =>
        if !(t.headers.contains "PasswordHash") then false
        else
          let user_password_hash := getField t.headers r "PasswordHash"
          if user_password_hash == "" then false
          else chk user_password_hash password

/-- Models `check_participant_login` including its data access (app.py lines
1263-1265): `get_sheet("Participants_list")` (returned as-is) and
`get_cached_sheet_data`; an exception from the fetch is caught and gives
`False`.  The remote fetch, when taken, succeeds with the current table. -/
def check_participant_login_flow (chk : String → String → Bool)
    (st : SessionState) (now : Int) (email password : String) : Bool :=
  let ws := get_sheet_st st "Participants_list"
  let r := get_cached_sheet_data st now "Participants_list"
      (.ok (recordsOfSheet ws))
  match r.result with
  | .ok recs => check_participant_login_data chk recs email password
  | .error _ => false

inductive Role
  | admin
  | participant
deriving DecidableEq, Repr

/-- The login button handler of `show_login_page` (app.py lines 1347-1371):
require both fields nonempty, then try the admin match first, then the
participant match; any participant-check exception is caught and the attempt
fails. -/
def login_attempt (chk : String → String → Bool) (sec : Secrets)
    (st : SessionState) (now : Int) (email password : String) : Option Role :=
  if email == "" || password == "" then none
  else if check_admin_login sec st email password then some Role.admin
  else if check_participant_login_flow chk st now email password then
    some Role.participant
  else none

/-- Models `add_password_column` (app.py lines 1202-1226): when the header row lacks
`PasswordHash`, append it to the headers, rewrite row 1, and write `""` into
the new column of every data row (`update_cell(i+2, num_cols, "")`). -/
def set_empty_cells (numCols : Nat) (s : RemoteSheet) : Nat → RemoteSheet
  | 0 => s
  | n + 1 => update_cell (set_empty_cells numCols s n) (n + 2) numCols ""

/-- Models `add_password_column` (app.py lines 1202-1226), acting on the worksheet. -/
def add_password_column (s : RemoteSheet) : RemoteSheet :=
  let headers := row_values_1 s
  if headers.contains "PasswordHash" then s
  else
    let headers' := headers ++ ["PasswordHash"]
    let num_cols := headers'.length
    let s1 := update_row s 1 headers'
    set_empty_cells num_cols s1 (get_all_records s).length

/-- Models `reset_participant_password` (app.py lines 1228-1259); the identical row
update also forms the body of `change_participant_password` (lines
1309-1334).  `data` is fetched before the column fix-up, so record dicts are
keyed by the original headers.  The first record whose `Email` equals the
argument is rebuilt from the (new) header list with `row.get(header, "")`,
its `PasswordHash` entry replaced by the fresh hash, and written back at
remote row `i+2`; no match returns `False`.  `generate_password_hash` is the
external werkzeug primitive, passed as `gen`. -/
def reset_participant_password (gen : String → String) (s : RemoteSheet)
    (email new_password : String) : Bool × RemoteSheet :=
  let data := get_all_records s
  let headers0 := row_values_1 s
  let s1 := if headers0.contains "PasswordHash" then s else add_password_column s
  let headers := row_values_1 s1
  match data.findIdx? (fun row => recordGet headers0 row "Email" == some email) with
  | none => (false, s1)
  | some i =>
      let row := data.getD i []
      let password_hash := gen new_password
      let row_data := headers.map (fun h => getField headers0 row h)
      let password_col := headers.findIdx (· == "PasswordHash")
      let row_data' := row_data.set password_col password_hash
      (true, update_row s1 (i + 2) row_data')

/-- The admin password-reset form handler (app.py lines 633-657):
`reset_participant_password` on the Participants worksheet, then
`clear_cache()` on success. -/
def reset_password_flow (gen : String → String) (st : SessionState)
    (email new_password : String) : Bool × SessionState :=
  let ws := get_sheet_st st "Participants_list"
  let (ok, ws') := reset_participant_password gen ws email new_password
  let st1 := set_table st "Participants_list" ws'
  if ok then (true, clear_cache st1) else (false, st1)

/-- Models `change_participant_password` (app.py lines 1300-1337) as invoked from
the participant sidebar (lines 1114-1126): verify the current password via
`check_participant_login` (which goes through the cache), then perform the
same row update as `reset_participant_password`.  Neither the function nor
its caller calls `clear_cache`. -/
def change_participant_password (chk : String → String → Bool)
    (gen : String → String) (st : SessionState) (now : Int)
    (email current_password new_password : String) : Bool × SessionState :=
  let ws := get_sheet_st st "Participants_list"
  let r := get_cached_sheet_data st now "Participants_list"
      (.ok (recordsOfSheet ws))
  let st1 := r.state
  let ok := match r.result with
    | .ok recs => check_participant_login_data chk recs email current_password
    | .error _ => false
  if !ok then (false, st1)
  else
    let ws1 := get_sheet_st st1 "Participants_list"
    let (b, ws2) := reset_participant_password gen ws1 email new_password
    (b, set_table st1 "Participants_list" ws2)

/-- The participant update-form handler (app.py lines 1176-1195):
`get_sheet("Updates")`, append the six-field row, `clear_cache()`. -/
def submit_update_flow (st : SessionState)
    (update_id timestamp user_team user_email update_text phase : String) :
    SessionState :=
  let ws := get_sheet_st st "Updates"
  let st1 := set_table st "Updates"
      (append_row ws [update_id, timestamp, user_team, user_email,
                      update_text, phase])
  clear_cache st1

/-- The `[gmail]` section of `st.secrets`. -/
structure GmailConfig where
  sender_email : Option String
  app_password : Option String
deriving DecidableEq, Repr

/-- Models `send_email_notification` (app.py lines 192-228): missing gmail section,
missing or empty sender email or app password give `False`; otherwise the
yagmail send is attempted, its outcome injected as `outcome`, and any
exception it raises is caught and reported as `False`.  No path raises. -/
def send_email_notification (gmail : Option GmailConfig)
    (outcome : Except String Unit)
    (to_email subject message_text : String) : Bool :=
  match gmail with
  | none => false
  | some cfg =>
      match cfg.sender_email, cfg.app_password with
      | some sender_email, some app_password =>
          if sender_email == "" || app_password == "" then false
          else
            match outcome with
            | .ok _ => true
            | .error _ => false
      | _, _ => false

/-- Models `clean_string` (app.py lines 234-241): replace non-breaking spaces by
spaces, split on whitespace runs, re-join with single spaces. -/
def clean_string (s : String) : String :=
  " ".intercalate
    (((s.replace "\u00A0" " ").split (fun c => c.isWhitespace)).filter
      (· ≠ ""))

/-- Models `notify_participant` (app.py lines 230-313), with the send outcome
injected.  Returns the success boolean together with the number of mail-send
attempts made.  Unknown notification types, and project-assignment
notifications whose project name is missing or cleans to empty, return
`False` with no send attempt; the whole body is wrapped in try/except, so no
path raises.  The three subject/message templates are built exactly as in
the source. -/
def notify_participant (gmail : Option GmailConfig)
    (outcome : Except String Unit) (email participant_name team_name : String)
    (notification_type : String) (project_name : Option String) :
    Bool × Nat :=
  let pname := clean_string participant_name
  let tname := clean_string team_name
  let proj : Option String :=
    match project_name with
    | some p => if p == "" then none else some (clean_string p)
    | none => none
  if notification_type == "team_assignment" then
    let subject := "Welcome to GenAI Cohort - Team Assignment"
    let message :=
      "Dear " ++ pname ++ ",\n\n" ++
      "Welcome to the GenAI Cohort! We\u0027re excited to have you on board.\n\n" ++
      "You have been assigned to team: " ++ tname ++ "\n\n" ++
      "To get started:\n1. Visit our portal\n2. Click \"Sign Up\"\n" ++
      "3. Use your email: " ++ email ++ "\n4. Create your password\n" ++
      "5. Log in to view your team and project details\n\n" ++
      "Best regards,\nThe GenAI Cohort Admin Team"
    (send_email_notification gmail outcome email subject message, 1)
  else if notification_type == "project_assignment" then
    match proj with
    | none => (false, 0)
    | some p =>
        if p == "" then (false, 0)
        else
          let subject := "New Project Assignment - " ++ p
          let message :=
            "Dear " ++ pname ++ ",\n\n" ++
            "A new project has been assigned to your team (" ++ tname ++ ").\n\n" ++
            "Project: " ++ p ++ "\n\n" ++
            "Please log in to the portal to:\n- View project details\n" ++
            "- Collaborate with your team\n- Submit progress updates\n\n" ++
            "Best regards,\nThe GenAI Cohort Admin Team"
          (send_email_notification gmail outcome email subject message, 1)
  else if notification_type == "password_reset" then
    let subject := "Password Reset Successful"
    let message :=
      "Dear " ++ pname ++ ",\n\n" ++
      "Your password has been reset successfully.\n\n" ++
      "Please log in to the portal using your new password.\n\n" ++
      "Best regards,\nThe GenAI Cohort Admin Team"
    (send_email_notification gmail outcome email subject message, 1)
  else (false, 0)

/-- A cell value as `gspread` serialises it from the signup form: Streamlit
text fields give strings, checkboxes give booleans. -/
inductive Cell
  | s (v : String)
  | b (v : Bool)
deriving DecidableEq, Repr

/-- The signup form fields (signup.py lines 39-56). -/
structure SignupForm where
  name : String
  email : String
  pref_name : String
  exp_level : String
  genai_exp : Bool
  background : List String
  why_join : String
  goals : String
  role_pref1 : String
  role_pref2 : String
  skills : String
  available : Bool
  best_time : String
  has_pc : Bool
  tools : List String
  other_tools : String
  additional_info : String
  mentor_future : Bool
deriving DecidableEq, Repr

/-- Models `new_data` (signup.py lines 60-80): the row the submit handler builds —
19 entries, multiselects joined with `", "`, the final entry the literal
string `"Pending"`. -/
def signup_row (f : SignupForm) : List Cell :=
  [.s f.name, .s f.email, .s f.pref_name, .s f.exp_level, .b f.genai_exp,
   .s (", ".intercalate f.background), .s f.why_join, .s f.goals,
   .s f.role_pref1, .s f.role_pref2, .s f.skills, .b f.available,
   .s f.best_time, .b f.has_pc, .s (", ".intercalate f.tools),
   .s f.other_tools, .s f.additional_info, .b f.mentor_future, .s "Pending"]

/-- The signup submit handler (signup.py lines 59-87): on every click it
builds `new_data` and appends it to the Participants sheet — there is no
field validation of any kind before the write. -/
def submit_signup (sheet : List (List Cell)) (f : SignupForm) :
    List (List Cell) :=
  append_row sheet (signup_row f)

/-! ### Concrete instances used by closed theorems -/

/-- The all-empty signup form. -/
def emptySignupForm : SignupForm :=
  ⟨"", "", "", "", false, [], "", "", "", "", "", false, "", false, [], "",
   "", false⟩

/-- A one-row snapshot of a table `"T"`. -/
def recA : SheetRecords := ⟨["A"], [["1"]]⟩

/-- A different one-row snapshot of `"T"`. -/
def recB : SheetRecords := ⟨["A"], [["2"]]⟩

/-- A session whose cache holds `recA` for `"T"`, fetched at time 0. -/
def stSnap : SessionState := ⟨[], [("T", recA)], [("T", 0)]⟩

/-- A session with an empty cache. -/
def stEmpty : SessionState := ⟨[], [], []⟩

/-- A concrete stand-in for werkzeug's `check_password_hash`. -/
def chkC (hash password : String) : Bool := hash == "H" ++ password

/-- A concrete stand-in for werkzeug's `generate_password_hash`. -/
def genC (password : String) : String := "H" ++ password

/-- A Participants worksheet with one participant whose hash is set. -/
def participantsSheet0 : RemoteSheet :=
  [["Email", "PasswordHash"], ["a@x.com", "Hold"]]

/-- A session holding `participantsSheet0` remotely, with a fresh (time 0)
cached snapshot of it. -/
def stPart : SessionState :=
  ⟨[("Participants_list", participantsSheet0)],
   [("Participants_list", recordsOfSheet participantsSheet0)],
   [("Participants_list", 0)]⟩

/-- A concrete secrets store with an admin section. -/
def secC : Secrets := ⟨some ⟨some "admin@x.com", some "secret"⟩⟩

/-- A concrete gmail section. -/
def gmailC : Option GmailConfig := some ⟨some "sender@x.com", some "apppw"⟩

/-! ### Helper lemmas -/

theorem lookupA_setA_self (l : List (String × α)) (k : String) (v : α) :
    lookupA (setA l k v) k = some v := by
  induction l with
  | nil => simp [setA, lookupA]
  | cons hd t ih =>
      obtain ⟨k', v'⟩ := hd
      by_cases hk : (k' == k) = true
      · simp [setA, hk, lookupA]
      · simp [setA, hk, lookupA, ih]

theorem send_email_notification_error (gmail : Option GmailConfig)
    (e : String) (a b c : String) :
    send_email_notification gmail (.error e) a b c = false := by
  cases gmail with
  | none => rfl
  | some cfg =>
      cases hse : cfg.sender_email with
      | none => simp [send_email_notification, hse]
      | some se =>
          cases hap : cfg.app_password with
          | none => simp [send_email_notification, hse, hap]
          | some ap => simp [send_email_notification, hse, hap]

/-! ### Claim theorems -/

/-- C3: Row Mutator offset arithmetic.  With the remote table `hdr :: rows`
and the snapshot rows `rows` in matching order, the source computes the
remote row number of 0-based snapshot position `k` as `k + 2`
(app.py lines 436-437, 824, 897-902, 1049-1050, 1076): deleting remote row
`k + 2` removes exactly snapshot row `k`, and updating remote row `k + 2`
overwrites exactly snapshot row `k`. -/
theorem row_mutator_offset_correct (hdr : Row) (rows : List Row) (k : Nat)
    (vals : Row) :
    delete_rows (hdr :: rows) (k + 2) = hdr :: rows.eraseIdx k
    ∧ update_row (hdr :: rows) (k + 2) vals = hdr :: rows.set k vals := by
  constructor <;> rfl

/-- C5: Worksheet Resolver header handling for existing worksheets.
`Participants_list` is returned as-is with no header comparison; any other
name has row 1 compared to the prescribed headers and, on mismatch, the
worksheet is cleared and only the prescribed header row remains (data rows
lost); on match the worksheet is untouched. -/
theorem get_sheet_header_normalization (sheet_name : String)
    (ws : RemoteSheet) :
    (sheet_name = "Participants_list" → get_sheet_existing sheet_name ws = ws)
    ∧ (sheet_name ≠ "Participants_list" →
        row_values_1 ws ≠ sheetHeaders sheet_name →
        get_sheet_existing sheet_name ws = [sheetHeaders sheet_name])
    ∧ (sheet_name ≠ "Participants_list" →
        row_values_1 ws = sheetHeaders sheet_name →
        get_sheet_existing sheet_name ws = ws) := by
  refine ⟨fun h => ?_, fun h hm => ?_, fun h hm => ?_⟩
  · simp [get_sheet_existing, h]
  · simp [get_sheet_existing, h, hm]
  · simp [get_sheet_existing, h, hm]

/-- Witness for C5 at concrete worksheets: the Participants table is kept
as-is, a mismatching `Teams` sheet is wiped down to its prescribed header
row, and a matching `Teams` sheet is untouched. -/
theorem get_sheet_header_normalization_witness :
    get_sheet_existing "Participants_list" [["X"], ["keep"]] = [["X"], ["keep"]]
    ∧ get_sheet_existing "Teams" [["X", "Y"], ["a", "b"]]
        = [["TeamName", "Description"]]
    ∧ get_sheet_existing "Teams" [["TeamName", "Description"], ["a", "b"]]
        = [["TeamName", "Description"], ["a", "b"]] :=
  ⟨(get_sheet_header_normalization "Participants_list" [["X"], ["keep"]]).1 rfl,
   (get_sheet_header_normalization "Teams" [["X", "Y"], ["a", "b"]]).2.1
     (by decide) (by decide),
   (get_sheet_header_normalization "Teams"
       [["TeamName", "Description"], ["a", "b"]]).2.2
     (by decide) (by decide)⟩

/-- C1: Read Cache hit and miss paths.  If a snapshot and its fetch-time are
recorded and the fetch-time is within 5 minutes of now, `get_cached_sheet_data`
returns that snapshot unchanged, leaves the state unchanged and performs no
remote fetch; if no valid snapshot exists, it performs exactly one remote
read-all-rows call and, on success, stores the new snapshot and fetch-time
and returns the fetched rows. -/
theorem get_cached_sheet_data_hit_and_miss (st : SessionState) (now : Int)
    (name : String) (fetch : Except FetchError SheetRecords) :
    (∀ d t, lookupA st.sheet_data_cache name = some d →
        lookupA st.last_sheet_refresh name = some t →
        now - t < CACHE_DURATION * 60 →
        get_cached_sheet_data st now name fetch = ⟨.ok d, st, 0⟩)
    ∧ (∀ d, cache_valid st now name = false → fetch = .ok d →
        get_cached_sheet_data st now name fetch =
          ⟨.ok d,
           { st with
              sheet_data_cache := setA st.sheet_data_cache name d,
              last_sheet_refresh := setA st.last_sheet_refresh name now },
           1⟩
        ∧ lookupA (setA st.sheet_data_cache name d) name = some d
        ∧ lookupA (setA st.last_sheet_refresh name now) name = some now) := by
  constructor
  · intro d t h1 h2 h3
    simp [get_cached_sheet_data, h1, h2, h3]
  · intro d hv hf
    subst hf
    refine ⟨?_, lookupA_setA_self _ _ _, lookupA_setA_self _ _ _⟩
    cases hc : lookupA st.sheet_data_cache name with
    | none => simp [get_cached_sheet_data, hc, fetch_sheet_data]
    | some d' =>
        cases hr : lookupA st.last_sheet_refresh name with
        | none => simp [get_cached_sheet_data, hc, hr, fetch_sheet_data]
        | some t =>
            have hnt : ¬(now - t < CACHE_DURATION * 60) := by
              simpa [cache_valid, hc, hr] using hv
            simp [get_cached_sheet_data, hc, hr, hnt, fetch_sheet_data]

/-- Witness for C1: at time 60 a fresh snapshot is served from the cache
with no remote call even when the remote would fail; at time 400 the
snapshot is expired and a successful fetch is stored and returned. -/
theorem get_cached_sheet_data_hit_and_miss_witness :
    get_cached_sheet_data stSnap 60 "T" (.error .other) = ⟨.ok recA, stSnap, 0⟩
    ∧ (get_cached_sheet_data stSnap 400 "T" (.ok recB)).fetchCount = 1
    ∧ (get_cached_sheet_data stSnap 400 "T" (.ok recB)).result = .ok recB :=
  ⟨(get_cached_sheet_data_hit_and_miss stSnap 60 "T" (.error .other)).1
     recA 0 rfl rfl (by decide),
   by rw [((get_cached_sheet_data_hit_and_miss stSnap 400 "T" (.ok recB)).2
       recB (by decide) rfl).1],
   by rw [((get_cached_sheet_data_hit_and_miss stSnap 400 "T" (.ok recB)).2
       recB (by decide) rfl).1]⟩

/-- C2 counterexample: with an (expired) snapshot recorded for `"T"`, a
non-rate-limit `APIError` is re-raised instead of returning the stale
snapshot — refuting "on any other failure, a stale snapshot is returned if
one exists". -/
theorem api_error_not_rate_limit_propagates_despite_snapshot :
    lookupA stSnap.sheet_data_cache "T" = some recA
    ∧ (get_cached_sheet_data stSnap 400 "T"
        (.error (.apiError false))).result = .error (.apiError false) := by
  decide

/-- C2 amended: on a failed fetch, a rate-limit (`429`) `APIError` returns
the stale snapshot when one is recorded and propagates when none is; a
non-rate-limit `APIError` always propagates, even when a snapshot exists;
any other exception returns the stale snapshot when one is recorded, else
propagates. -/
theorem get_cached_sheet_data_failure_paths (st : SessionState) (now : Int)
    (name : String) (hv : cache_valid st now name = false) :
    (∀ d t, lookupA st.sheet_data_cache name = some d →
        lookupA st.last_sheet_refresh name = some t →
        get_cached_sheet_data st now name (.error (.apiError true))
            = ⟨.ok d, st, 1⟩
        ∧ get_cached_sheet_data st now name (.error .other) = ⟨.ok d, st, 1⟩)
    ∧ (lookupA st.sheet_data_cache name = none →
        get_cached_sheet_data st now name (.error (.apiError true))
            = ⟨.error (.apiError true), st, 1⟩
        ∧ get_cached_sheet_data st now name (.error .other)
            = ⟨.error .other, st, 1⟩)
    ∧ get_cached_sheet_data st now name (.error (.apiError false))
        = ⟨.error (.apiError false), st, 1⟩ := by
  refine ⟨fun d t hc hr => ?_, fun hc => ?_, ?_⟩
  · have hnt : ¬(now - t < CACHE_DURATION * 60) := by
      simpa [cache_valid, hc, hr] using hv
    exact ⟨by simp [get_cached_sheet_data, hc, hr, hnt, fetch_sheet_data],
           by simp [get_cached_sheet_data, hc, hr, hnt, fetch_sheet_data]⟩
  · cases hr : lookupA st.last_sheet_refresh name <;>
      exact ⟨by simp [get_cached_sheet_data, hc, hr, fetch_sheet_data],
             by simp [get_cached_sheet_data, hc, hr, fetch_sheet_data]⟩
  · cases hc : lookupA st.sheet_data_cache name with
    | none =>
        cases hr : lookupA st.last_sheet_refresh name <;>
          simp [get_cached_sheet_data, hc, hr, fetch_sheet_data]
    | some d =>
        cases hr : lookupA st.last_sheet_refresh name with
        | none => simp [get_cached_sheet_data, hc, hr, fetch_sheet_data]
        | some t =>
            have hnt : ¬(now - t < CACHE_DURATION * 60) := by
              simpa [cache_valid, hc, hr] using hv
            simp [get_cached_sheet_data, hc, hr, hnt, fetch_sheet_data]

/-- Witness for C2 (amended): at an expired snapshot a rate-limit error
returns the stale rows; with no snapshot both a rate-limit error and a
non-rate-limit `APIError` propagate. -/
theorem get_cached_sheet_data_failure_paths_witness :
    get_cached_sheet_data stSnap 400 "T" (.error (.apiError true))
        = ⟨.ok recA, stSnap, 1⟩
    ∧ get_cached_sheet_data stEmpty 0 "T" (.error (.apiError true))
        = ⟨.error (.apiError true), stEmpty, 1⟩
    ∧ get_cached_sheet_data stEmpty 0 "T" (.error (.apiError false))
        = ⟨.error (.apiError false), stEmpty, 1⟩ :=
  ⟨((get_cached_sheet_data_failure_paths stSnap 400 "T" (by decide)).1
      recA 0 rfl rfl).1,
   ((get_cached_sheet_data_failure_paths stEmpty 0 "T" (by decide)).2.1
      rfl).1,
   (get_cached_sheet_data_failure_paths stEmpty 0 "T" (by decide)).2.2⟩

/-- C6: participant login requires a stored hash.  If every record whose
`Email` field equals the supplied email has an empty (or, the column being
absent, missing) `PasswordHash` field, `check_participant_login` returns
`false` for every supplied password; conversely a `true` result means the
first matching record carries a non-empty stored hash that the hash-check
primitive verified against the supplied password. -/
theorem participant_login_requires_stored_hash (chk : String → String → Bool)
    (t : SheetRecords) (email password : String) :
    ((∀ r ∈ t.rows, getField t.headers r "Email" = email →
        getField t.headers r "PasswordHash" = "") →
      check_participant_login_data chk t email password = false)
    ∧ (check_participant_login_data chk t email password = true →
      ∃ r, t.rows.find? (fun r => getField t.headers r "Email" == email)
            = some r
        ∧ getField t.headers r "PasswordHash" ≠ ""
        ∧ chk (getField t.headers r "PasswordHash") password = true) := by
  constructor
  · intro hall
    by_cases h0 : t.rows.isEmpty
    · simp [check_participant_login_data, h0]
    · by_cases h1 : "Email" ∈ t.headers
      · cases hf : t.rows.find?
            (fun r => getField t.headers r "Email" == email) with
        | none => simp [check_participant_login_data, h0, h1, hf]
        | some r =>
            have hmem := List.mem_of_find?_eq_some hf
            have hem : getField t.headers r "Email" = email := by
              simpa using List.find?_some hf
            have hhash := hall r hmem hem
            simp [check_participant_login_data, h0, h1, hf, hhash]
      · simp [check_participant_login_data, h0, h1]
  · intro htrue
    by_cases h0 : t.rows.isEmpty
    · simp [check_participant_login_data, h0] at htrue
    · by_cases h1 : "Email" ∈ t.headers
      · cases hf : t.rows.find?
            (fun r => getField t.headers r "Email" == email) with
        | none => simp [check_participant_login_data, h0, h1, hf] at htrue
        | some r =>
            simp [check_participant_login_data, h0, h1, hf] at htrue
            exact ⟨r, rfl, htrue.2.1, htrue.2.2⟩
      · simp [check_participant_login_data, h0, h1] at htrue

/-- Witness for C6: a record with matching email but empty hash cannot log
in with any of two sample passwords; a record with a set hash yields a
`true` login whose verified hash is exhibited. -/
theorem participant_login_requires_stored_hash_witness :
    check_participant_login_data chkC
        ⟨["Email", "PasswordHash"], [["a@x.com", ""]]⟩ "a@x.com" "pw" = false
    ∧ (∃ r, ([["a@x.com", "Hpw"]] : List Row).find?
          (fun r => getField ["Email", "PasswordHash"] r "Email" == "a@x.com")
            = some r
        ∧ getField ["Email", "PasswordHash"] r "PasswordHash" ≠ ""
        ∧ chkC (getField ["Email", "PasswordHash"] r "PasswordHash") "pw"
            = true) :=
  ⟨(participant_login_requires_stored_hash chkC
      ⟨["Email", "PasswordHash"], [["a@x.com", ""]]⟩ "a@x.com" "pw").1
      (by decide),
   (participant_login_requires_stored_hash chkC
      ⟨["Email", "PasswordHash"], [["a@x.com", "Hpw"]]⟩ "a@x.com" "pw").2
      (by decide)⟩

/-- C7: admin login noninterference and ordering.  `check_admin_login`
reads only the static admin configuration and the two inputs — for any two
session states (spreadsheet tables and caches) it returns the same result —
and the login handler evaluates the admin exact-string match first: whenever
it succeeds (and both fields are nonempty), the attempt resolves to the
admin role at every session state, so no participant data is consulted. -/
theorem admin_login_noninterference_and_order (sec : Secrets)
    (email password : String) :
    (∀ s1 s2 : SessionState,
        check_admin_login sec s1 email password
          = check_admin_login sec s2 email password)
    ∧ (∀ (chk : String → String → Bool) (s1 s2 : SessionState) (now : Int),
        email ≠ "" → password ≠ "" →
        check_admin_login sec s1 email password = true →
        login_attempt chk sec s2 now email password = some Role.admin) := by
  constructor
  · intro s1 s2
    rfl
  · intro chk s1 s2 now he hp hadmin
    have he' : (email == "") = false := beq_eq_false_iff_ne.mpr he
    have hp' : (password == "") = false := beq_eq_false_iff_ne.mpr hp
    have hadmin2 : check_admin_login sec s2 email password = true := hadmin
    simp [login_attempt, he', hp', hadmin2]

/-- Witness for C7: the admin credential matches identically against an
empty session and a session with participant data, and the login attempt
resolves to the admin role on the populated session. -/
theorem admin_login_noninterference_and_order_witness :
    check_admin_login secC stEmpty "admin@x.com" "secret"
        = check_admin_login secC stPart "admin@x.com" "secret"
    ∧ login_attempt chkC secC stPart 0 "admin@x.com" "secret"
        = some Role.admin :=
  ⟨(admin_login_noninterference_and_order secC "admin@x.com" "secret").1
      stEmpty stPart,
   (admin_login_noninterference_and_order secC "admin@x.com" "secret").2
      chkC stEmpty stPart 0 (by decide) (by decide) (by decide)⟩

/-- C8: Notifier boundary.  `notify_participant` is a total boolean-valued
function (every mail-send exception is caught inside
`send_email_notification`, and the body is itself wrapped in try/except):
an unknown notification type returns `false` with no send attempt; a
project-assignment notification with no project name (or one that cleans to
empty) returns `false` with no send attempt; and whenever the mail send
fails the call reports `false`. -/
theorem notify_participant_boundary (gmail : Option GmailConfig)
    (outcome : Except String Unit)
    (email participant_name team_name notification_type : String)
    (project_name : Option String) :
    (notification_type ≠ "team_assignment" →
      notification_type ≠ "project_assignment" →
      notification_type ≠ "password_reset" →
      notify_participant gmail outcome email participant_name team_name
        notification_type project_name = (false, 0))
    ∧ (notification_type = "project_assignment" →
      project_name = none ∨ project_name = some "" →
      notify_participant gmail outcome email participant_name team_name
        notification_type project_name = (false, 0))
    ∧ (∀ e, outcome = .error e →
      (notify_participant gmail outcome email participant_name team_name
        notification_type project_name).1 = false) := by
  refine ⟨fun h1 h2 h3 => ?_, fun h hcl => ?_, fun e he => ?_⟩
  · have h1' : (notification_type == "team_assignment") = false :=
      beq_eq_false_iff_ne.mpr h1
    have h2' : (notification_type == "project_assignment") = false :=
      beq_eq_false_iff_ne.mpr h2
    have h3' : (notification_type == "password_reset") = false :=
      beq_eq_false_iff_ne.mpr h3
    simp [notify_participant, h1', h2', h3']
  · subst h
    rcases hcl with hn | hs
    · subst hn
      simp [notify_participant]
    · subst hs
      simp [notify_participant]
  · subst he
    cases project_name with
    | none =>
        simp [notify_participant, send_email_notification_error,
          apply_ite Prod.fst]
    | some p =>
        by_cases hp : p = ""
        · simp [notify_participant, hp, send_email_notification_error,
            apply_ite Prod.fst]
        · simp [notify_participant, hp, send_email_notification_error,
            apply_ite Prod.fst]

/-- Witness for C8: an unknown type and a project assignment without a
project both return `(false, 0)`; a team assignment whose mail send raises
reports `false`. -/
theorem notify_participant_boundary_witness :
    notify_participant gmailC (.ok ()) "e@x.com" "Ann" "T1" "bogus" none
        = (false, 0)
    ∧ notify_participant gmailC (.ok ()) "e@x.com" "Ann" "T1"
        "project_assignment" none = (false, 0)
    ∧ (notify_participant gmailC (.error "smtp down") "e@x.com" "Ann" "T1"
        "team_assignment" none).1 = false :=
  ⟨(notify_participant_boundary gmailC (.ok ()) "e@x.com" "Ann" "T1" "bogus"
      none).1 (by decide) (by decide) (by decide),
   (notify_participant_boundary gmailC (.ok ()) "e@x.com" "Ann" "T1"
      "project_assignment" none).2.1 rfl (Or.inl rfl),
   (notify_participant_boundary gmailC (.error "smtp down") "e@x.com" "Ann"
      "T1" "team_assignment" none).2.2 "smtp down" rfl⟩

/-- C9 counterexample: the signup submit handler performs no client-side
required-field check — a submission with empty Name and Email still appends
a row, so "a submission attempts a write only after client-side
required-field checks pass" is false for signup.py. -/
theorem signup_submits_without_validation :
    emptySignupForm.name = "" ∧ emptySignupForm.email = ""
    ∧ submit_signup [] emptySignupForm ≠ []
    ∧ (submit_signup [] emptySignupForm).length = 1 := by
  decide

/-- C9 amended: every submission (with no validation of any field) appends
exactly one row — `new_data`, 19 entries — whose final value is the literal
string `"Pending"`; in particular Ada's submission appends a row ending in
`Status = "Pending"`. -/
theorem signup_append_spec (sheet : List (List Cell)) (f : SignupForm) :
    submit_signup sheet f = sheet ++ [signup_row f]
    ∧ (signup_row f).getLast? = some (.s "Pending")
    ∧ (signup_row f).length = 19 :=
  ⟨rfl, rfl, rfl⟩

/-- C4 (code bug): every other write handler calls `clear_cache()` after
writing, but `change_participant_password` and its caller do not.  At a
session holding a valid cached Participants snapshot, a successful password
change leaves the cache untouched (and nonempty), so a login within the
5-minute TTL still verifies against the stale hash: the new password is
rejected and the old one still accepted.  By contrast, posting an update and
the admin password-reset flow leave the cache empty. -/
theorem password_change_leaves_cache_stale :
    (change_participant_password chkC genC stPart 60 "a@x.com" "old"
        "new").1 = true
    ∧ (change_participant_password chkC genC stPart 60 "a@x.com" "old"
        "new").2.sheet_data_cache = stPart.sheet_data_cache
    ∧ (change_participant_password chkC genC stPart 60 "a@x.com" "old"
        "new").2.sheet_data_cache ≠ []
    ∧ check_participant_login_flow chkC
        (change_participant_password chkC genC stPart 60 "a@x.com" "old"
          "new").2 120 "a@x.com" "new" = false
    ∧ check_participant_login_flow chkC
        (change_participant_password chkC genC stPart 60 "a@x.com" "old"
          "new").2 120 "a@x.com" "old" = true
    ∧ (submit_update_flow stPart "u1" "2025-01-01 00:00:00" "T1" "a@x.com"
        "text" "Design").sheet_data_cache = []
    ∧ (reset_password_flow genC stPart "a@x.com" "new").2.sheet_data_cache
        = [] := by
  decide

/-- C10 counterexample: on a Participants sheet without a `PasswordHash`
column, a reset for an email with no matching row returns `false` yet
changes the table — `add_password_column` rewrites the header row first —
refuting "the table is unchanged on failure" for every spreadsheet state. -/
theorem reset_password_modifies_table_on_failure :
    (reset_participant_password genC [["Email"]] "x@x.com" "pw").1 = false
    ∧ (reset_participant_password genC [["Email"]] "x@x.com" "pw").2
        = [["Email", "PasswordHash"]]
    ∧ (reset_participant_password genC [["Email"]] "x@x.com" "pw").2
        ≠ [["Email"]] := by
  decide

/-- C10 amended: provided the `PasswordHash` column is already present in
the header row, `reset_participant_password` with no matching email returns
`false` and leaves the table unchanged, and with a first match at record
index `i` returns `true` and overwrites exactly remote row `i + 2` with a
row agreeing with the old record on every header except `PasswordHash`,
which becomes the new hash.  (When the column is absent the header row is
rewritten first, even on failure — see the counterexample.) -/
theorem reset_password_atomicity (gen : String → String) (s : RemoteSheet)
    (email new_password : String)
    (hP : "PasswordHash" ∈ row_values_1 s) :
    ((get_all_records s).findIdx?
        (fun row => recordGet (row_values_1 s) row "Email" == some email)
          = none →
      reset_participant_password gen s email new_password = (false, s))
    ∧ (∀ i, (get_all_records s).findIdx?
        (fun row => recordGet (row_values_1 s) row "Email" == some email)
          = some i →
      ∃ newRow,
        reset_participant_password gen s email new_password
            = (true, update_row s (i + 2) newRow)
        ∧ getField (row_values_1 s) newRow "PasswordHash" = gen new_password
        ∧ ∀ h, h ∈ row_values_1 s → h ≠ "PasswordHash" →
            getField (row_values_1 s) newRow h
              = getField (row_values_1 s) ((get_all_records s).getD i []) h) := by
  have hcont : (row_values_1 s).contains "PasswordHash" = true := by
    simpa using hP
  have hpc_lt : (row_values_1 s).findIdx (· == "PasswordHash")
      < (row_values_1 s).length :=
    List.findIdx_lt_length_of_exists ⟨"PasswordHash", hP, by simp⟩
  have hd_pc : (row_values_1 s)[(row_values_1 s).findIdx
      (· == "PasswordHash")] = "PasswordHash" := by
    simpa using List.findIdx_getElem (w := hpc_lt)
  have hpc? : (row_values_1 s).findIdx? (· == "PasswordHash")
      = some ((row_values_1 s).findIdx (· == "PasswordHash")) :=
    List.findIdx?_eq_some_iff_findIdx_eq.mpr ⟨hpc_lt, rfl⟩
  constructor
  · intro hnone
    simp [reset_participant_password, hP, hcont, hnone]
  · intro i hsome
    refine ⟨((row_values_1 s).map (fun h =>
        getField (row_values_1 s) ((get_all_records s).getD i []) h)).set
          ((row_values_1 s).findIdx (· == "PasswordHash"))
          (gen new_password), ?_, ?_, ?_⟩
    · simp [reset_participant_password, hP, hcont, hsome]
    · simp only [getField, hpc?]
      simp only [List.getD_eq_getElem?_getD, List.getElem?_set_self',
        List.getElem?_map, List.getElem?_eq_getElem hpc_lt]
      simp
    · intro h hmem hne
      have hj_lt : (row_values_1 s).findIdx (· == h)
          < (row_values_1 s).length :=
        List.findIdx_lt_length_of_exists ⟨h, hmem, by simp⟩
      have hj? : (row_values_1 s).findIdx? (· == h)
          = some ((row_values_1 s).findIdx (· == h)) :=
        List.findIdx?_eq_some_iff_findIdx_eq.mpr ⟨hj_lt, rfl⟩
      have hd_j : (row_values_1 s)[(row_values_1 s).findIdx (· == h)] = h := by
        simpa using List.findIdx_getElem (w := hj_lt)
      have hj_ne_pc : (row_values_1 s).findIdx (· == h)
          ≠ (row_values_1 s).findIdx (· == "PasswordHash") := by
        intro hEq
        have e1 : (row_values_1 s)[(row_values_1 s).findIdx (· == h)]?
            = some h := by
          rw [List.getElem?_eq_getElem hj_lt, hd_j]
        have e2 : (row_values_1 s)[(row_values_1 s).findIdx
            (· == "PasswordHash")]? = some "PasswordHash" := by
          rw [List.getElem?_eq_getElem hpc_lt, hd_pc]
        rw [hEq, e2] at e1
        exact hne (Option.some.inj e1).symm
      simp only [getField, hj?]
      simp only [List.getD_eq_getElem?_getD,
        List.getElem?_set_ne (Ne.symm hj_ne_pc),
        List.getElem?_map, List.getElem?_eq_getElem hj_lt]
      simp [getField, hj?, hd_j]

/-- Witness for C10 (amended): on a Participants sheet with the hash column
present, resetting an unknown email fails and leaves the table unchanged,
and resetting a present email succeeds. -/
theorem reset_password_atomicity_witness :
    reset_participant_password genC participantsSheet0 "zzz" "pw"
        = (false, participantsSheet0)
    ∧ (reset_participant_password genC participantsSheet0 "a@x.com"
        "npw").1 = true := by
  constructor
  · exact (reset_password_atomicity genC participantsSheet0 "zzz" "pw"
      (by decide)).1 (by decide)
  · obtain ⟨nr, he, -, -⟩ :=
      (reset_password_atomicity genC participantsSheet0 "a@x.com" "npw"
        (by decide)).2 0 (by decide)
    rw [he]

end Cohort
